import Mathlib

/-!
Verification of the v5 peer-protocol flow registrar
(`protocol/flows/src/v5/mod.rs`) of rusty-kaspa.

The file embeds the observable structure of `register(ctx, router)`:
the type-tag universe, each flow's subscriptions (tags, capacity variant,
router-reference strength, handoff-channel ends), the order of the steps
performed by `register`, the drain task's per-envelope behaviour, and a
model of the bounded handoff channel.
-/

/-- Modelled from the spec: the closed type-tag enumeration
`KaspadMessagePayloadType` is declared in `kaspa_p2p_lib`, outside this
tree.  The spec describes it as "a closed, versioned enumeration", and the
drain subscription list in `register` enumerates every variant (claimed
ones as active entries, the rest as commented entries); the constructors
below are exactly that enumeration. -/
inductive KaspadMessagePayloadType where
  | Addresses
  | Block
  | Transaction
  | BlockLocator
  | RequestAddresses
  | RequestRelayBlocks
  | RequestTransactions
  | IbdBlock
  | InvRelayBlock
  | InvTransactions
  | Ping
  | Pong
  | Verack
  | Version
  | Ready
  | TransactionNotFound
  | Reject
  | PruningPointUtxoSetChunk
  | RequestIbdBlocks
  | UnexpectedPruningPoint
  | IbdBlockLocatorHighestHash
  | RequestNextPruningPointUtxoSetChunk
  | DonePruningPointUtxoSetChunks
  | IbdBlockLocatorHighestHashNotFound
  | BlockWithTrustedData
  | IbdBlockLocator
  | DoneBlocksWithTrustedData
  | RequestPruningPointAndItsAnticone
  | BlockHeaders
  | RequestNextHeaders
  | DoneHeaders
  | RequestPruningPointUtxoSet
  | RequestHeaders
  | RequestBlockLocator
  | PruningPoints
  | RequestPruningPointProof
  | PruningPointProof
  | BlockWithTrustedDataV4
  | TrustedData
  | RequestIbdChainBlockLocator
  | IbdChainBlockLocator
  | RequestAnticone
  | RequestNextPruningPointAndItsAnticoneBlocks
  deriving DecidableEq, Fintype, Repr

open KaspadMessagePayloadType

/-- The named flow variants constructed by `register`, in source order. -/
inductive FlowKind where
  | IbdFlow
  | HandleRelayInvsFlow
  | HandleRelayBlockRequests
  | ReceivePingsFlow
  | SendPingsFlow
  | RequestHeadersFlow
  | RequestPruningPointProofFlow
  | RequestIbdChainBlockLocatorFlow
  | PruningPointAndItsAnticoneRequestsFlow
  | RequestPruningPointUtxoSetFlow
  | HandleIbdBlockRequests
  | HandleAnticoneRequests
  | RelayTransactionsFlow
  | RequestTransactionsFlow
  | ReceiveAddressesFlow
  | SendAddressesFlow
  | RequestBlockLocatorFlow
  deriving DecidableEq, Fintype, Repr

/-- Whether a flow holds the router handle as a strong `Arc` clone or as a
weak reference obtained through `Arc::downgrade`. -/
inductive RouterRef where
  | strong
  | weak
  deriving DecidableEq, Repr

/-- One `router.subscribe`/`router.subscribe_with_capacity` call: the tag
list passed, and whether the capacity-widening variant
(`subscribe_with_capacity`) was used. -/
structure Subscription where
  tags : List KaspadMessagePayloadType
  widened : Bool
  deriving DecidableEq, Repr

/-- Which end of the relay-invs → IBD handoff channel a flow's constructor
receives, if any. -/
inductive HandoffEnd where
  | noEnd
  | sender
  | receiver
  deriving DecidableEq, Repr

/-- A named flow as constructed by `register`: its variant, the strength of
the router reference passed to its constructor, its subscriptions in call
order, and the handoff-channel end it receives. -/
structure FlowDesc where
  name : FlowKind
  ref : RouterRef
  subs : List Subscription
  handoff : HandoffEnd
  deriving DecidableEq, Repr

/-- `IbdFlow::new(ctx, router.clone(), router.subscribe([...14 tags...]),
relay_receiver)` (mod.rs lines 40-60). -/
def ibdFlow : FlowDesc :=
  { name := .IbdFlow
    ref := .strong
    subs := [⟨[BlockHeaders, DoneHeaders, IbdBlockLocatorHighestHash,
               IbdBlockLocatorHighestHashNotFound, BlockWithTrustedDataV4,
               DoneBlocksWithTrustedData, IbdChainBlockLocator, IbdBlock,
               TrustedData, PruningPoints, PruningPointProof,
               UnexpectedPruningPoint, PruningPointUtxoSetChunk,
               DonePruningPointUtxoSetChunks], false⟩]
    handoff := .receiver }

/-- `HandleRelayInvsFlow::new(ctx, router.clone(),
router.subscribe([InvRelayBlock]), router.subscribe([Block, BlockLocator]),
ibd_sender)` (mod.rs lines 61-67). -/
def handleRelayInvsFlow : FlowDesc :=
  { name := .HandleRelayInvsFlow
    ref := .strong
    subs := [⟨[InvRelayBlock], false⟩, ⟨[Block, BlockLocator], false⟩]
    handoff := .sender }

/-- `HandleRelayBlockRequests::new` (mod.rs lines 68-72). -/
def handleRelayBlockRequests : FlowDesc :=
  { name := .HandleRelayBlockRequests
    ref := .strong
    subs := [⟨[RequestRelayBlocks], false⟩]
    handoff := .noEnd }

/-- `ReceivePingsFlow::new` (mod.rs line 73). -/
def receivePingsFlow : FlowDesc :=
  { name := .ReceivePingsFlow
    ref := .strong
    subs := [⟨[Ping], false⟩]
    handoff := .noEnd }

/-- `SendPingsFlow::new(ctx, Arc::downgrade(&router),
router.subscribe([Pong]))` (mod.rs line 74): the only constructor receiving
a downgraded (weak) router reference. -/
def sendPingsFlow : FlowDesc :=
  { name := .SendPingsFlow
    ref := .weak
    subs := [⟨[Pong], false⟩]
    handoff := .noEnd }

/-- `RequestHeadersFlow::new` (mod.rs lines 75-79). -/
def requestHeadersFlow : FlowDesc :=
  { name := .RequestHeadersFlow
    ref := .strong
    subs := [⟨[RequestHeaders, RequestNextHeaders], false⟩]
    handoff := .noEnd }

/-- `RequestPruningPointProofFlow::new` (mod.rs lines 80-84). -/
def requestPruningPointProofFlow : FlowDesc :=
  { name := .RequestPruningPointProofFlow
    ref := .strong
    subs := [⟨[RequestPruningPointProof], false⟩]
    handoff := .noEnd }

/-- `RequestIbdChainBlockLocatorFlow::new` (mod.rs lines 85-89). -/
def requestIbdChainBlockLocatorFlow : FlowDesc :=
  { name := .RequestIbdChainBlockLocatorFlow
    ref := .strong
    subs := [⟨[RequestIbdChainBlockLocator], false⟩]
    handoff := .noEnd }

/-- `PruningPointAndItsAnticoneRequestsFlow::new` (mod.rs lines 90-97). -/
def pruningPointAndItsAnticoneRequestsFlow : FlowDesc :=
  { name := .PruningPointAndItsAnticoneRequestsFlow
    ref := .strong
    subs := [⟨[RequestPruningPointAndItsAnticone,
               RequestNextPruningPointAndItsAnticoneBlocks], false⟩]
    handoff := .noEnd }

/-- `RequestPruningPointUtxoSetFlow::new` (mod.rs lines 98-105). -/
def requestPruningPointUtxoSetFlow : FlowDesc :=
  { name := .RequestPruningPointUtxoSetFlow
    ref := .strong
    subs := [⟨[RequestPruningPointUtxoSet,
               RequestNextPruningPointUtxoSetChunk], false⟩]
    handoff := .noEnd }

/-- `HandleIbdBlockRequests::new` (mod.rs lines 106-110). -/
def handleIbdBlockRequests : FlowDesc :=
  { name := .HandleIbdBlockRequests
    ref := .strong
    subs := [⟨[RequestIbdBlocks], false⟩]
    handoff := .noEnd }

/-- `HandleAnticoneRequests::new` (mod.rs lines 111-115). -/
def handleAnticoneRequests : FlowDesc :=
  { name := .HandleAnticoneRequests
    ref := .strong
    subs := [⟨[RequestAnticone], false⟩]
    handoff := .noEnd }

/-- `RelayTransactionsFlow::new(ctx, router.clone(),
router.subscribe_with_capacity([InvTransactions], invs_channel_size()),
router.subscribe([Transaction, TransactionNotFound]))`
(mod.rs lines 116-122): the one use of the capacity-widening variant. -/
def relayTransactionsFlow : FlowDesc :=
  { name := .RelayTransactionsFlow
    ref := .strong
    subs := [⟨[InvTransactions], true⟩,
             ⟨[Transaction, TransactionNotFound], false⟩]
    handoff := .noEnd }

/-- `RequestTransactionsFlow::new` (mod.rs lines 123-127). -/
def requestTransactionsFlow : FlowDesc :=
  { name := .RequestTransactionsFlow
    ref := .strong
    subs := [⟨[RequestTransactions], false⟩]
    handoff := .noEnd }

/-- `ReceiveAddressesFlow::new` (mod.rs line 128). -/
def receiveAddressesFlow : FlowDesc :=
  { name := .ReceiveAddressesFlow
    ref := .strong
    subs := [⟨[Addresses], false⟩]
    handoff := .noEnd }

/-- `SendAddressesFlow::new` (mod.rs lines 129-133). -/
def sendAddressesFlow : FlowDesc :=
  { name := .SendAddressesFlow
    ref := .strong
    subs := [⟨[RequestAddresses], false⟩]
    handoff := .noEnd }

/-- `RequestBlockLocatorFlow::new` (mod.rs lines 134-138). -/
def requestBlockLocatorFlow : FlowDesc :=
  { name := .RequestBlockLocatorFlow
    ref := .strong
    subs := [⟨[RequestBlockLocator], false⟩]
    handoff := .noEnd }

/-- The `flows` vector built by `register` (mod.rs lines 39-139), in source
order. -/
def namedFlows : List FlowDesc :=
  [ibdFlow, handleRelayInvsFlow, handleRelayBlockRequests, receivePingsFlow,
   sendPingsFlow, requestHeadersFlow, requestPruningPointProofFlow,
   requestIbdChainBlockLocatorFlow, pruningPointAndItsAnticoneRequestsFlow,
   requestPruningPointUtxoSetFlow, handleIbdBlockRequests,
   handleAnticoneRequests, relayTransactionsFlow, requestTransactionsFlow,
   receiveAddressesFlow, sendAddressesFlow, requestBlockLocatorFlow]

/-- The tag list of the drain (`unimplemented_messages_route`) subscription
(mod.rs lines 143-190): every entry except `Reject` is commented out in the
source. -/
def drainTags : List KaspadMessagePayloadType := [Reject]

/-- A step of `register`, abstracting one observable action. -/
inductive Step where
  | channel (capacity : Nat)
  | flow (f : FlowDesc)
  | drainSubscribe (tags : List KaspadMessagePayloadType)
  | spawnDrain
  | returnFlows
  deriving DecidableEq, Repr

/-- The steps of `register(ctx, router)` in program order (mod.rs lines
36-203): `tokio::sync::mpsc::channel(1)` first, then the construction of
the `flows` vector (each flow's `subscribe` calls are evaluated as
arguments of its constructor), then the drain subscription, then
`tokio::spawn` of the drain task, then `flows` is returned. -/
def registerSteps : List Step :=
  Step.channel 1 :: namedFlows.map Step.flow
    ++ [Step.drainSubscribe drainTags, Step.spawnDrain, Step.returnFlows]

/-- Every tag claimed by some subscription made in `register`: the named
flows' tags in subscription order, then the drain's tags. -/
def claimedTags : List KaspadMessagePayloadType :=
  (namedFlows.flatMap fun f => f.subs.flatMap Subscription.tags) ++ drainTags

/-- How many subscriptions made in `register` claim tag `t` (counting a
tag listed twice in one subscription twice). -/
def claimCount (t : KaspadMessagePayloadType) : Nat :=
  claimedTags.count t

/-- The five payload types no subscription of `register` claims: the
handshake types (handled before `register` runs) and the two types the
source comments mark as deprecated. -/
def unclaimedTags : List KaspadMessagePayloadType :=
  [Version, Verack, Ready, BlockWithTrustedData, IbdBlockLocator]

/-- The drained message's payload as the drain task discriminates it: the
`Reject` variant carries its `reason` string; every other payload variant
only matters to the drain through its tag, so it is collapsed to `other`
(modelled from the spec: the full `kaspad_message::Payload` enum is
declared in `kaspa_p2p_lib`, outside this tree). -/
inductive PayloadModel where
  | reject (reason : String)
  | other (tag : KaspadMessagePayloadType)
  deriving DecidableEq, Repr

/-- A `KaspadMessage` as it reaches the drain task: `payload` is an
`Option` exactly as in the protobuf-generated struct. -/
structure KaspadMessage where
  payload : Option PayloadModel
  deriving DecidableEq, Repr

/-- One log emission of the drain task: the warning for a `Reject` payload
carries the reject message's stated reason and the peer (router) identity;
everything else is a debug-level line. -/
inductive LogEvent where
  | warnReject (reason : String) (peer : String)
  | debugUnimplemented (msg : KaspadMessage)
  deriving DecidableEq, Repr

/-- The body of the drain task's loop (mod.rs lines 194-199): match on
`msg.payload`; `Some(Payload::Reject(reject_msg))` is logged with `warn!`
including `reject_msg.reason` and the router identity, everything else
with `debug!`.  The return type is a plain `LogEvent`: the body has no
error path. -/
def drainHandle (routerIdent : String) (msg : KaspadMessage) : LogEvent :=
  match msg.payload with
  | some (.reject reason) => .warnReject reason routerIdent
  | _ => .debugUnimplemented msg

/-- One iteration of the drain task's `while let Some(msg) = recv()` loop
(mod.rs lines 192-201): `none` from `recv` (channel closed) is the loop's
only exit; any received message produces a log event and the loop
continues. -/
def drainStep (routerIdent : String) (received : Option KaspadMessage) :
    Option LogEvent :=
  received.map (drainHandle routerIdent)

/-- The drain task run over the whole inbound stream of its subscription,
the stream's end standing for channel closure: every envelope is consumed
and logged, and the task returns normally. -/
def drainRun (routerIdent : String) : List KaspadMessage → List LogEvent
  | [] => []
  | m :: ms => drainHandle routerIdent m :: drainRun routerIdent ms

/-- An operation on the relay-invs → IBD handoff channel: `send` from the
relay-invs flow, `recv` by the IBD flow. -/
inductive ChanOp (α : Type) where
  | send (a : α)
  | recv

/-- Modelled from the spec: the handoff channel is a bounded
(`tokio::sync::mpsc::channel(cap)`) queue; a send onto a full channel
suspends the sender — the state is unchanged, nothing is overwritten or
dropped — and a receive pops the oldest element. -/
def chanStep {α : Type} (cap : Nat) (pending : List α) :
    ChanOp α → List α
  | .send a => if pending.length < cap then pending ++ [a] else pending
  | .recv => pending.tail

/-- The channel state after a sequence of operations, starting empty. -/
def chanRun {α : Type} (cap : Nat) (ops : List (ChanOp α)) : List α :=
  ops.foldl (chanStep cap) []

/-- `true` on the handoff-channel-creation step. -/
def isChannelStep : Step → Bool
  | .channel _ => true
  | _ => false

/-- `true` on the construction step of the named flow `n`. -/
def isFlowStep (n : FlowKind) : Step → Bool
  | .flow f => f.name == n
  | _ => false

/-- `true` on any named-flow construction step. -/
def isAnyFlowStep : Step → Bool
  | .flow _ => true
  | _ => false

/-- `true` on the drain-subscription step. -/
def isDrainSubscribeStep : Step → Bool
  | .drainSubscribe _ => true
  | _ => false

/-- `true` on the drain-task-spawn step. -/
def isSpawnDrainStep : Step → Bool
  | .spawnDrain => true
  | _ => false

/-- `true` on the step returning the flow set to the caller. -/
def isReturnStep : Step → Bool
  | .returnFlows => true
  | _ => false

/-- The capacity passed on a channel-creation step, `none` elsewhere. -/
def stepChannelCapacity : Step → Option Nat
  | .channel c => some c
  | _ => none

/-- Index of the first step of `register` satisfying `p`. -/
def stepIdx (p : Step → Bool) : Nat :=
  registerSteps.findIdx p

/-- All tags subscribed by the named flows (the drain excluded), in
subscription order. -/
def namedFlowTags : List KaspadMessagePayloadType :=
  namedFlows.flatMap fun f => f.subs.flatMap Subscription.tags

/-- The tag list of the single subscription of the IBD flow. -/
def ibdTags : List KaspadMessagePayloadType :=
  ibdFlow.subs.flatMap Subscription.tags

/-- The subscriptions made through the capacity-widening variant, paired
with the flow that owns them. -/
def widenedSubs : List (FlowKind × Subscription) :=
  namedFlows.flatMap fun f =>
    (f.subs.filter Subscription.widened).map fun s => (f.name, s)

theorem chanStep_length_le {α : Type} (cap : Nat) (p : List α)
    (op : ChanOp α) (h : p.length ≤ cap) :
    (chanStep cap p op).length ≤ cap := by
  cases op with
  | send a =>
      simp only [chanStep]
      split
      · simp only [List.length_append, List.length_singleton]
        omega
      · exact h
  | recv =>
      simp only [chanStep, List.length_tail]
      omega

theorem chanRun_aux_length_le {α : Type} (cap : Nat) :
    ∀ (ops : List (ChanOp α)) (p : List α), p.length ≤ cap →
      (List.foldl (chanStep cap) p ops).length ≤ cap
  | [], _, h => h
  | op :: ops, p, h =>
      chanRun_aux_length_le cap ops (chanStep cap p op)
        (chanStep_length_le cap p op h)

theorem drainRun_length (r : String) :
    ∀ ms : List KaspadMessage, (drainRun r ms).length = ms.length
  | [] => rfl
  | _ :: ms => congrArg Nat.succ (drainRun_length r ms)

/-- Claim C1, as stated, is false: the claim says every
`KaspadMessagePayloadType` is claimed by exactly one subscription of
`register`, but the `Version` tag (among others) is claimed by none —
its drain-list entry is commented out and no flow subscribes to it. -/
theorem register_coverage_counterexample :
    ¬ ∀ t : KaspadMessagePayloadType, claimCount t = 1 :=
  fun h => absurd (h .Version) (by decide)

/-- Claim C1 (amended): after `register` completes, no tag is claimed by
more than one subscription, and every tag other than the five in
`unclaimedTags` (`Version`, `Verack`, `Ready`, and the deprecated
`BlockWithTrustedData` and `IbdBlockLocator`) is claimed by exactly one
subscription (a named flow's or the drain's); those five are claimed by
none. -/
theorem register_coverage_amended :
    ∀ t : KaspadMessagePayloadType,
      claimCount t = if t ∈ unclaimedTags then 0 else 1 := by
  decide

/-- Claim C2: `register` creates exactly one inter-flow channel, the
relay-invs → IBD handoff channel, with capacity exactly 1; in the bounded
channel model, a channel of capacity 1 started empty never holds more than
one pending signal under any sequence of sends and receives, and a send
onto the full channel leaves the channel state unchanged (the sender
suspends; nothing is overwritten or dropped). -/
theorem handoff_channel_capacity_one :
    (registerSteps.filterMap stepChannelCapacity = [1]) ∧
    (∀ (α : Type) (ops : List (ChanOp α)), (chanRun 1 ops).length ≤ 1) ∧
    (∀ (α : Type) (p : List α) (a : α), 1 ≤ p.length →
      chanStep 1 p (.send a) = p) := by
  refine ⟨by decide, fun α ops => chanRun_aux_length_le 1 ops [] (by simp),
    fun α p a h => ?_⟩
  simp only [chanStep]
  rw [if_neg (by omega)]

theorem handoff_channel_capacity_one_witness :
    chanStep 1 [0] (ChanOp.send 1) = [0] :=
  handoff_channel_capacity_one.2.2 Nat [0] 1 (by decide)

/-- Claim C3: the drain task logs an envelope whose payload is a `Reject`
message at warning level, including the reject's stated reason and the
peer (router) identity; every other envelope is logged at debug level.
`drainHandle` returns a plain `LogEvent`, so neither case propagates an
error. -/
theorem drain_reject_warn_other_debug :
    (∀ (r reason : String),
      drainHandle r ⟨some (.reject reason)⟩ = .warnReject reason r) ∧
    (∀ (r : String) (msg : KaspadMessage),
      (∀ reason, msg.payload ≠ some (.reject reason)) →
        drainHandle r msg = .debugUnimplemented msg) := by
  refine ⟨fun r reason => rfl, fun r msg h => ?_⟩
  obtain ⟨p⟩ := msg
  cases p with
  | none => rfl
  | some pm =>
      cases pm with
      | reject reason => exact absurd rfl (h reason)
      | other t => rfl

theorem drain_reject_warn_other_debug_witness :
    drainHandle "peer" ⟨some (.other .Ping)⟩ =
      .debugUnimplemented ⟨some (.other .Ping)⟩ :=
  drain_reject_warn_other_debug.2 "peer" ⟨some (.other .Ping)⟩
    (fun reason h => by simp at h)

/-- Claim C4: `register` performs its steps in the required order — the
handoff channel is created before both its consumer (the IBD flow, which
receives the channel's receiving end) and its producer (the relay-invs
flow, which receives the sending end) are constructed; every named flow is
constructed (every `FlowKind` has a construction step) and carries at
least one subscription; the drain subscription comes after every named
flow's construction; the drain task is spawned after the drain
subscription; and the flow set is returned last. -/
theorem register_step_order :
    ibdFlow.handoff = .receiver ∧
    handleRelayInvsFlow.handoff = .sender ∧
    stepIdx isChannelStep < stepIdx (isFlowStep .IbdFlow) ∧
    stepIdx isChannelStep < stepIdx (isFlowStep .HandleRelayInvsFlow) ∧
    (∀ k : FlowKind,
      isFlowStep k (registerSteps.getD (stepIdx (isFlowStep k))
        .returnFlows) = true) ∧
    (∀ f ∈ namedFlows, f.subs ≠ []) ∧
    (∀ i ∈ List.range registerSteps.length,
      isAnyFlowStep (registerSteps.getD i .returnFlows) = true →
        i < stepIdx isDrainSubscribeStep) ∧
    stepIdx isDrainSubscribeStep < stepIdx isSpawnDrainStep ∧
    stepIdx isSpawnDrainStep < stepIdx isReturnStep ∧
    stepIdx isReturnStep = registerSteps.length - 1 := by
  decide

theorem register_step_order_witness :
    1 < stepIdx isDrainSubscribeStep :=
  register_step_order.2.2.2.2.2.2.1 1 (by decide) (by decide)

/-- Claim C5: among the flows constructed by `register`, exactly the
outbound-ping sender (`SendPingsFlow`) receives a weak (downgraded) router
reference; every other flow receives a strong shared reference. -/
theorem only_send_pings_weak :
    ((namedFlows.filter fun f => f.ref == .weak).map FlowDesc.name
      = [.SendPingsFlow]) ∧
    (∀ f ∈ namedFlows, f.name ≠ .SendPingsFlow → f.ref = .strong) := by
  decide

theorem only_send_pings_weak_witness :
    ibdFlow.ref = RouterRef.strong :=
  only_send_pings_weak.2 ibdFlow (by decide) (by decide)

/-- Claim C6: across all flow subscriptions made by `register`, exactly
one uses the capacity-widening variant `subscribe_with_capacity`: the
transaction-inventory subscription (tags `[InvTransactions]`) of
`RelayTransactionsFlow`.  (The drain subscription is made through plain
`subscribe` and has no capacity argument in the model.) -/
theorem only_relay_tx_invs_widened :
    widenedSubs = [(.RelayTransactionsFlow, ⟨[InvTransactions], true⟩)] := by
  decide

/-- Claim C7: the concatenation of all tag lists of the named flows'
subscriptions has no duplicate, hence the tag sets of distinct named
flows' subscriptions are pairwise disjoint and no flow lists a tag
twice. -/
theorem named_flow_tags_disjoint : namedFlowTags.Nodup := by
  decide

/-- Claim C8: the drain task's loop exits exactly when its subscription
channel closes — one loop iteration exits (produces no log event and
stops) iff `recv` returned `none` — and over any finite inbound stream
the drain consumes and logs every envelope, returning normally with one
log event per envelope. -/
theorem drain_exits_iff_stream_closed :
    (∀ (r : String) (received : Option KaspadMessage),
      drainStep r received = none ↔ received = none) ∧
    (∀ (r : String) (ms : List KaspadMessage),
      (drainRun r ms).length = ms.length) := by
  refine ⟨fun r received => ?_, fun r => drainRun_length r⟩
  cases received <;> simp [drainStep]

/-- Claim C9: the IBD flow's single subscription lists exactly 14 distinct
tags, and they span the headers exchange (`BlockHeaders`, `DoneHeaders`),
block delivery (`IbdBlock`), the pruning-point exchange (`PruningPoints`,
`PruningPointProof`, `UnexpectedPruningPoint`, the UTXO-set chunks) and
the trusted-data exchange (`BlockWithTrustedDataV4`, `TrustedData`,
`DoneBlocksWithTrustedData`). -/
theorem ibd_subscription_fourteen_tags :
    ibdFlow.subs.length = 1 ∧
    ibdTags.length = 14 ∧
    ibdTags.Nodup ∧
    BlockHeaders ∈ ibdTags ∧ DoneHeaders ∈ ibdTags ∧
    IbdBlock ∈ ibdTags ∧
    PruningPoints ∈ ibdTags ∧ PruningPointProof ∈ ibdTags ∧
    UnexpectedPruningPoint ∈ ibdTags ∧
    PruningPointUtxoSetChunk ∈ ibdTags ∧
    DonePruningPointUtxoSetChunks ∈ ibdTags ∧
    BlockWithTrustedDataV4 ∈ ibdTags ∧ TrustedData ∈ ibdTags ∧
    DoneBlocksWithTrustedData ∈ ibdTags := by
  decide

/-- Claim C10: the drain subscription claims exactly the `Reject` tag, and
exactly five payload types are claimed by no subscription at all —
`Version`, `Verack`, `Ready` and the deprecated `BlockWithTrustedData`
and `IbdBlockLocator` — so a message bearing one of those five tags is
not routed by this registrar. -/
theorem drain_reject_and_five_unclaimed :
    drainTags = [Reject] ∧
    unclaimedTags
      = [Version, Verack, Ready, BlockWithTrustedData, IbdBlockLocator] ∧
    (∀ t : KaspadMessagePayloadType,
      claimCount t = 0 ↔ t ∈ unclaimedTags) := by
  decide
